import Mathlib

/-!
Verification of the order-lifecycle and payment-scheduling core of the
`faezee` retail ordering assistant.  The Python modules
`bot/pricing.py`, `payment_data/bot/order_server.py` and
`payment_data/bot/payment_scheduler.py` are embedded shallowly below:
pure functions become Lean functions, the JSON file stores become
explicit association lists threaded through the operations, external
side effects (Telegram messages, Hesabfa invoicing) become explicit
effect traces, and Python's binary64 floating point arithmetic is
modelled exactly by round-to-nearest-even on exact fractions.
-/

namespace Faezee

/-! ## Exact model of binary64 arithmetic

Python floats are IEEE 754 binary64 values.  Every finite double is a
rational number; an arithmetic operation computes the exact rational
result and rounds it to the nearest representable double (ties to
even).  We represent exact rationals as `Frac` pairs (numerator,
positive denominator) so that every operation reduces by plain integer
arithmetic. -/

/-- An exact fraction `num / den`; every value built below has a
positive denominator. -/
structure Frac where
  num : ℤ
  den : ℤ
deriving Repr, DecidableEq

/-- The rational value of a fraction. -/
def Frac.val (f : Frac) : ℚ := (f.num : ℚ) / (f.den : ℚ)

/-- Embed an integer. -/
def Frac.ofInt (n : ℤ) : Frac := ⟨n, 1⟩

/-- Exact product. -/
def Frac.mul (a b : Frac) : Frac := ⟨a.num * b.num, a.den * b.den⟩

/-- Exact quotient, keeping the denominator positive. -/
def Frac.div (a b : Frac) : Frac :=
  if 0 ≤ b.num then ⟨a.num * b.den, a.den * b.num⟩
  else ⟨-(a.num * b.den), -(a.den * b.num)⟩

/-- `⌊a⌋` for a fraction with positive denominator (`Int.fdiv` is
floor division). -/
def Frac.floor (a : Frac) : ℤ := Int.fdiv a.num a.den

/-- `⌊log₂ a⌋` computed by repeated halving with explicit fuel
(the fuel is always sufficient for the word-sized numbers arising
here). -/
def log2fuel : ℕ → ℕ → ℕ
  | 0, _ => 0
  | fuel + 1, n => if n ≤ 1 then 0 else 1 + log2fuel fuel (n / 2)

/-- `⌊log₂ a⌋` of a positive fraction (junk value on other inputs). -/
def Frac.log2 (a : Frac) : ℤ :=
  let n := a.num.toNat
  let d := a.den.toNat
  if d ≤ n then (log2fuel 4096 (n / d) : ℤ)
  else
    let L := log2fuel 4096 (d / n)
    if n * 2 ^ L = d then -(L : ℤ) else -(L : ℤ) - 1

/-- Round a fraction (with positive denominator) to the nearest
integer, ties to the even integer. -/
def Frac.roundHalfEven (a : Frac) : ℤ :=
  let f := a.floor
  -- the fractional part is (a.num - f * a.den) / a.den; compare it with 1/2
  let r2 := 2 * (a.num - f * a.den)
  if r2 < a.den then f
  else if a.den < r2 then f + 1
  else if f % 2 = 0 then f else f + 1

/-- Reduce a dyadic fraction `m / 2^j` to lowest terms (the
denominator `2^j` makes `Int.gcd` cheap and exact). -/
def dyadic (m : ℤ) (j : ℕ) : Frac :=
  let d : ℤ := 2 ^ j
  let g : ℤ := (Int.gcd m d : ℤ)
  ⟨m / g, d / g⟩

/-- Round an exact fraction to the nearest binary64 value (normal
range, which covers every value in this development), ties to even:
scale the absolute value to a 53-bit significand, round, and scale
back.  The result is in lowest terms, so equal doubles are equal
`Frac` structures. -/
def roundDouble (q : Frac) : Frac :=
  if q.num = 0 then ⟨0, 1⟩
  else
    let a : Frac := ⟨|q.num|, |q.den|⟩
    let e := a.log2
    let k := e - 52
    let shifted : Frac :=
      if 0 ≤ k then ⟨a.num, a.den * 2 ^ k.toNat⟩ else ⟨a.num * 2 ^ (-k).toNat, a.den⟩
    let m := shifted.roundHalfEven
    let sm := if q.num < 0 then -m else m
    if 0 ≤ k then ⟨sm * 2 ^ k.toNat, 1⟩ else dyadic sm (-k).toNat

/-- Python's `int(x)` on a float: truncation toward zero. -/
def pyTrunc (q : Frac) : ℤ :=
  if 0 ≤ q.num then q.num.fdiv q.den else -((-q.num).fdiv q.den)

/-- Python's implicit `int → float` conversion: rounding to the
nearest double. -/
def pyFloat (n : ℤ) : Frac := roundDouble (Frac.ofInt n)

/-- Binary64 multiplication: round the exact product. -/
def fmul (a b : Frac) : Frac := roundDouble (a.mul b)

/-- Binary64 (true) division: round the exact quotient. -/
def fdiv (a b : Frac) : Frac := roundDouble (a.div b)

/-- The binary64 value denoted by the Python literal `0.30`. -/
def lit03 : Frac := ⟨5404319552844595, 18014398509481984⟩

/-- The binary64 value denoted by the Python literal `0.09`. -/
def lit009 : Frac := ⟨3242591731706757, 36028797018963968⟩

/-! ## Pricing (`src/bot/pricing.py`, `PricingManager`) -/

/-- One cart item; prices and quantities are Python ints (the
`price` and `quantity` fields of the cart dictionaries). -/
structure CartItem where
  price : ℤ
  quantity : ℤ
deriving Repr, DecidableEq

/-- `PricingManager.calculate_subtotal`:
`sum(item['price'] * item['quantity'] for item in cart_items)` — an
exact integer sum in Python. -/
def calculate_subtotal (cart_items : List CartItem) : ℤ :=
  (cart_items.map fun it => it.price * it.quantity).sum

/-- `PricingManager.calculate_discount`: `int(subtotal * discount_rate)` —
the int is converted to a double, multiplied by the rate in binary64,
and the product truncated toward zero. -/
def calculate_discount (subtotal : ℤ) (discount_rate : Frac) : ℤ :=
  pyTrunc (fmul (pyFloat subtotal) discount_rate)

/-- `PricingManager.calculate_tax`: `int(amount * 0.09)` in binary64. -/
def calculate_tax (amount : ℤ) : ℤ :=
  pyTrunc (fmul (pyFloat amount) lit009)

/-! ## String helpers

Python's `str.startswith`, `str.endswith` and `str.replace` modelled on
the character lists underlying Lean strings (`str.replace` replaces
every occurrence; its fuel argument is the length of the subject, which
suffices because the patterns used in the source are non-empty). -/

/-- `s.startswith(p)`. -/
def strStartsWith (s p : String) : Bool := p.data.isPrefixOf s.data

/-- `s.endswith(p)`. -/
def strEndsWith (s p : String) : Bool := p.data.isSuffixOf s.data

/-- Replace every occurrence of `pat` by `rep`, scanning left to right. -/
def replaceFuel (pat rep : List Char) : ℕ → List Char → List Char
  | 0, l => l
  | _ + 1, [] => []
  | fuel + 1, c :: cs =>
    if pat ≠ [] ∧ pat.isPrefixOf (c :: cs) then
      rep ++ replaceFuel pat rep fuel (List.drop pat.length (c :: cs))
    else
      c :: replaceFuel pat rep fuel cs

/-- `s.replace(pat, rep)`. -/
def strReplace (s pat rep : String) : String :=
  String.mk (replaceFuel pat.data rep.data s.data.length s.data)

/-! ## Order store and lifecycle (`src/payment_data/bot/order_server.py`) -/

/-- Customer snapshot (`name`, `city`, `customer_id`). -/
structure Customer where
  name : String
  city : String
  customer_id : String
deriving Repr, DecidableEq

/-- One entry of `status_history`. -/
structure StatusEntry where
  status : String
  timestamp : ℕ
  admin : Option String
  note : String
deriving Repr, DecidableEq

/-- The `pricing` sub-record of an order. -/
structure Pricing where
  subtotal : ℤ
  discount_rate : Frac
  discount : ℤ
  tax : ℤ
  total : ℤ
deriving Repr, DecidableEq

/-- A persisted order record (`order_data` in the source). -/
structure Order where
  order_id : String
  user_id : ℤ
  customer : Customer
  cart_items : List CartItem
  payment_method : String
  pricing : Pricing
  status : String
  created_at : ℕ
  updated_at : ℕ
  status_history : List StatusEntry
  hesabfa_invoice_id : Option String
deriving Repr, DecidableEq

/-- The file-backed state of `OrderManagementServer`: one JSON file per
order (an association list from file name to record) plus the contents
of `order_counter.txt` (0 when the file does not exist yet). -/
structure OrderStore where
  files : List (String × Order)
  counter : ℕ
deriving Repr, DecidableEq

/-- Association-list lookup (first match), modelling dictionary /
file-system access by key. -/
def alookup {α : Type} : List (String × α) → String → Option α
  | [], _ => none
  | (k', v) :: t, k => if k' = k then some v else alookup t k

/-- Association-list insert-or-update (first match), modelling
`d[k] = v` on a dictionary, or writing a file at a path. -/
def aupsert {α : Type} : List (String × α) → String → α → List (String × α)
  | [], k, v => [(k, v)]
  | (k', v') :: t, k, v =>
    if k' = k then (k, v) :: t else (k', v') :: aupsert t k v

/-- `OrderManagementServer._get_order_file_path`. -/
def get_order_file_path (order_id : String) : String :=
  "order_" ++ order_id ++ ".json"

/-- Zero-padding of `f"{counter:05d}"`. -/
def pad5 (n : ℕ) : String :=
  let s := toString n
  String.mk (List.replicate (5 - s.length) '0' ++ s.data)

/-- `OrderManagementServer._generate_order_id`, success path: read the
counter (0 when absent), increment, store it back, and format it as a
5-digit id.  Returns the id and the new counter. -/
def generate_order_id (counter : ℕ) : String × ℕ :=
  (pad5 (counter + 1), counter + 1)

/-- `OrderManagementServer._save_order`: write the record at its path. -/
def save_order (store : OrderStore) (o : Order) : OrderStore :=
  { store with files := aupsert store.files (get_order_file_path o.order_id) o }

/-- `OrderManagementServer._load_order`: read the record at its path. -/
def load_order (store : OrderStore) (order_id : String) : Option Order :=
  alookup store.files (get_order_file_path order_id)

/-- External side effects of the order server, in the sequence they are
attempted.  A `notifyFallback` effect records that the direct customer
notification failed and a background retry task was spawned instead. -/
inductive Effect where
  | persistOrder (o : Order)
  | supportGroupInvoice (order_id : String) (receipt : Option String)
  | notifyCustomer (user_id : ℤ) (status : String) (order_id : String)
  | notifyFallback (user_id : ℤ) (status : String) (order_id : String)
  | hesabfaTask (order_id : String)
deriving Repr, DecidableEq

/-- `OrderManagementServer._get_status_text`. -/
def get_status_text (status : String) : String :=
  if status = "pending" then "در انتظار"
  else if status = "contacted" then "در حال پیگیری"
  else if status = "confirmed" then "تایید شد"
  else if status = "preparing" then "در حال آماده‌سازی"
  else if status = "ready" then "آماده ارسال"
  else if status = "shipped" then "ارسال شد"
  else if status = "delivered" then "تحویل داده شد"
  else if status = "completed" then "تکمیل شد"
  else if status = "cancelled" then "لغو شد"
  else status

/-- The generated history note of `update_order_status` when the caller
passes an empty note. -/
def defaultNote (old_status new_status : String) : String :=
  "وضعیت از " ++ get_status_text old_status ++ " به " ++
    get_status_text new_status ++ " تغییر کرد"

/-- `OrderManagementServer.create_order`: allocate the next id, price
the cart, persist the `pending` record with a single history entry, and
fire the support-group and customer notifications.  `now` stands for
`datetime.now()`. -/
def create_order (store : OrderStore) (user_id : ℤ) (customer : Customer)
    (cart_items : List CartItem) (payment_method : String) (discount_rate : Frac)
    (receipt_photo_id : Option String) (now : ℕ) :
    String × OrderStore × List Effect :=
  let (order_id, counter') := generate_order_id store.counter
  let subtotal := calculate_subtotal cart_items
  let discount := calculate_discount subtotal discount_rate
  let tax := calculate_tax (subtotal - discount)
  let total := subtotal - discount + tax
  let od : Order :=
    { order_id := order_id
      user_id := user_id
      customer := customer
      cart_items := cart_items
      payment_method := payment_method
      pricing := ⟨subtotal, discount_rate, discount, tax, total⟩
      status := "pending"
      created_at := now
      updated_at := now
      status_history := [⟨"pending", now, none, "سفارش ایجاد شد"⟩]
      hesabfa_invoice_id := none }
  let store' := save_order { store with counter := counter' } od
  (order_id, store',
    [Effect.persistOrder od,
     Effect.supportGroupInvoice order_id receipt_photo_id,
     Effect.notifyCustomer user_id "pending" order_id])

/-- `OrderManagementServer.update_order_status`: load the record (fail
with `False` when absent), set the new status and `updated_at`, append
a history entry, persist, then — after persisting — spawn the Hesabfa
task when the new status is `confirmed` and no invoice id is recorded,
and attempt the customer notification (a failed send, `notifyFails`,
only spawns a background retry).  `botSet` models whether a bot
instance was configured. -/
def update_order_status (store : OrderStore) (order_id new_status admin_name note : String)
    (now : ℕ) (botSet notifyFails : Bool) : Bool × OrderStore × List Effect :=
  match load_order store order_id with
  | none => (false, store, [])
  | some od =>
    let entry : StatusEntry :=
      ⟨new_status, now, some admin_name,
       if note = "" then defaultNote od.status new_status else note⟩
    let od' : Order :=
      { od with
          status := new_status
          updated_at := now
          status_history := od.status_history ++ [entry] }
    let store' := save_order store od'
    let hesabfaEffects :=
      if new_status = "confirmed" ∧ od'.hesabfa_invoice_id = none then
        [Effect.hesabfaTask order_id]
      else []
    let notifyEffects :=
      if od.user_id ≠ 0 ∧ botSet then
        if notifyFails then [Effect.notifyFallback od.user_id new_status order_id]
        else [Effect.notifyCustomer od.user_id new_status order_id]
      else []
    (true, store', Effect.persistOrder od' :: (hesabfaEffects ++ notifyEffects))

/-- `OrderManagementServer.get_customer_orders`: scan the directory for
file names of the shape `order_{user_id}_*.json`, load each matching
record, and sort newest first by `created_at`. -/
def get_customer_orders (store : OrderStore) (user_id : ℤ) : List Order :=
  let orders := store.files.filterMap fun p =>
    if strStartsWith p.1 ("order_" ++ toString user_id ++ "_") ∧ strEndsWith p.1 ".json"
    then load_order store (strReplace (strReplace p.1 "order_" "") ".json" "")
    else none
  List.insertionSort (fun a b => b.created_at ≤ a.created_at) orders

/-! ## Payment schedules (`src/payment_data/bot/payment_scheduler.py`)

Dates are modelled as day numbers (the source compares
`strftime("%Y-%m-%d")` strings for equality, which on the relevant
range is equality of calendar days). -/

/-- A persisted payment schedule.  The 60-day records carry
`payment_type = "60day"` and a single `payment_date`; the 90-day
records carry no `payment_type` key (the reader defaults it to
`"90day"`), a `monthly_amount` and three `payment_dates`. -/
structure Schedule where
  user_id : ℤ
  customer_info : Customer
  order_id : String
  total_amount : Frac
  advance_paid : Frac
  remaining_amount : Frac
  monthly_amount : Option Frac
  payment_date : Option ℕ
  payment_dates : Option (List ℕ)
  payment_type : Option String
  payments_made : List ℤ
  created_date : ℕ
  status : String
deriving Repr, DecidableEq

/-- The contents of `payment_schedules.json`: a dictionary from
schedule id to schedule. -/
abbrev SchedStore : Type := List (String × Schedule)

/-- `PaymentScheduler.add_60day_payment_schedule`: one due date 60 days
out, `status='active'`, no payments made.  `today` stands for
`datetime.now()` and `ts` for its timestamp. -/
def add_60day_payment_schedule (store : SchedStore) (user_id : ℤ) (customer_info : Customer)
    (total_amount advance_paid remaining_amount : Frac) (order_id : String)
    (today : ℕ) (ts : ℤ) : Bool × SchedStore :=
  let schedule_id := toString user_id ++ "_" ++ order_id ++ "_" ++ toString ts
  let sch : Schedule :=
    { user_id := user_id
      customer_info := customer_info
      order_id := order_id
      total_amount := total_amount
      advance_paid := advance_paid
      remaining_amount := remaining_amount
      monthly_amount := none
      payment_date := some (today + 60)
      payment_dates := none
      payment_type := some "60day"
      payments_made := []
      created_date := today
      status := "active" }
  (true, aupsert store schedule_id sch)

/-- `PaymentScheduler.add_90day_payment_schedule`:
`monthly_amount = remaining_amount / 3` (binary64 division), three due
dates at +30/+60/+90 days, `status='active'`, no payments made. -/
def add_90day_payment_schedule (store : SchedStore) (user_id : ℤ) (customer_info : Customer)
    (total_amount advance_paid remaining_amount : Frac) (order_id : String)
    (today : ℕ) (ts : ℤ) : Bool × SchedStore :=
  let monthly_amount := fdiv remaining_amount (Frac.ofInt 3)
  let payment_dates := [today + 30, today + 60, today + 90]
  let schedule_id := toString user_id ++ "_" ++ order_id ++ "_" ++ toString ts
  let sch : Schedule :=
    { user_id := user_id
      customer_info := customer_info
      order_id := order_id
      total_amount := total_amount
      advance_paid := advance_paid
      remaining_amount := remaining_amount
      monthly_amount := some monthly_amount
      payment_date := none
      payment_dates := some payment_dates
      payment_type := none
      payments_made := []
      created_date := today
      status := "active" }
  (true, aupsert store schedule_id sch)

/-- One entry of the list returned by `get_pending_reminders`. -/
structure Reminder where
  schedule_id : String
  user_id : ℤ
  customer_info : Customer
  payment_number : ℤ
  amount : Frac
  remaining_payments : Option ℤ
  payment_type : String
  payment_date : ℕ
deriving Repr, DecidableEq

/-- `PaymentScheduler.get_pending_reminders`: scan every schedule,
skip the non-`active` ones, and emit a reminder for each installment
due `today` that is not yet in `payments_made`.  The function only
reads the store. -/
def get_pending_reminders (store : SchedStore) (today : ℕ) : List Reminder :=
  store.flatMap fun p =>
    let sch := p.2
    if sch.status ≠ "active" then []
    else if sch.payment_type.getD "90day" = "60day" then
      if sch.payment_date.getD 0 = today ∧ sch.payments_made = [] then
        [{ schedule_id := p.1
           user_id := sch.user_id
           customer_info := sch.customer_info
           payment_number := 1
           amount := sch.remaining_amount
           remaining_payments := none
           payment_type := "60day"
           payment_date := sch.payment_date.getD 0 }]
      else []
    else
      (sch.payment_dates.getD []).enum.filterMap fun q =>
        if q.2 = today ∧ (q.1 : ℤ) ∉ sch.payments_made then
          some
            { schedule_id := p.1
              user_id := sch.user_id
              customer_info := sch.customer_info
              payment_number := (q.1 : ℤ) + 1
              amount := sch.monthly_amount.getD ⟨0, 1⟩
              remaining_payments := some (3 - (sch.payments_made.length : ℤ))
              payment_type := "90day"
              payment_date := q.2 }
        else none

/-- The schedule-level effect of `PaymentScheduler.mark_payment_made`.
For 60-day records the single marker is set and the schedule completed
unconditionally; for 90-day records `payment_number - 1` is appended
(if absent) and the list re-sorted, and the schedule completes once
three indices are present. -/
def markSchedule (sch : Schedule) (payment_number : ℤ) : Schedule :=
  if sch.payment_type.getD "90day" = "60day" then
    { sch with payments_made := [0], status := "completed" }
  else
    let pm :=
      if (payment_number - 1) ∈ sch.payments_made then sch.payments_made
      else List.insertionSort (fun a b => a ≤ b) (sch.payments_made ++ [payment_number - 1])
    let st := if 3 ≤ pm.length then "completed" else sch.status
    { sch with payments_made := pm, status := st }

/-- `PaymentScheduler.mark_payment_made`: fail when the schedule id is
unknown, otherwise update the schedule and persist the store. -/
def mark_payment_made (store : SchedStore) (schedule_id : String) (payment_number : ℤ) :
    Bool × SchedStore :=
  match alookup store schedule_id with
  | none => (false, store)
  | some sch => (true, aupsert store schedule_id (markSchedule sch payment_number))

/-- `PaymentScheduler.cancel_payment_schedule`: fail when unknown,
otherwise set `status='cancelled'`. -/
def cancel_payment_schedule (store : SchedStore) (schedule_id : String) :
    Bool × SchedStore :=
  match alookup store schedule_id with
  | none => (false, store)
  | some sch => (true, aupsert store schedule_id { sch with status := "cancelled" })

/-- Run a sequence of `mark_payment_made` calls against one schedule. -/
def markSeq (store : SchedStore) (schedule_id : String) (ns : List ℤ) : SchedStore :=
  ns.foldl (fun st n => (mark_payment_made st schedule_id n).2) store

/-! ## Concrete fixtures used by the closed theorems -/

/-- A persisted order in the terminal status `completed`. -/
def completedOrder : Order :=
  { order_id := "00001"
    user_id := 7
    customer := ⟨"Ali", "Tehran", "C42"⟩
    cart_items := [⟨4780000, 1⟩]
    payment_method := "cash"
    pricing := ⟨4780000, lit03, 1434000, 301140, 3647140⟩
    status := "completed"
    created_at := 3
    updated_at := 5
    status_history := [⟨"pending", 3, none, "سفارش ایجاد شد"⟩, ⟨"completed", 5, some "admin", "done"⟩]
    hesabfa_invoice_id := none }

/-- A store holding exactly `completedOrder` under its file name. -/
def storeCompleted : OrderStore := ⟨[("order_00001.json", completedOrder)], 1⟩

/-- The empty order store (no files, counter file absent). -/
def emptyStore : OrderStore := ⟨[], 0⟩

/-- A fresh 90-day schedule as `add_90day_payment_schedule` creates it. -/
def sched90 : Schedule :=
  { user_id := 7
    customer_info := ⟨"Ali", "Tehran", "C42"⟩
    order_id := "00001"
    total_amount := Frac.ofInt 1200000
    advance_paid := Frac.ofInt 300000
    remaining_amount := Frac.ofInt 900000
    monthly_amount := some (fdiv (Frac.ofInt 900000) (Frac.ofInt 3))
    payment_date := none
    payment_dates := some [130, 160, 190]
    payment_type := none
    payments_made := []
    created_date := 100
    status := "active" }

/-- A store holding exactly `sched90`. -/
def schedStore90 : SchedStore := [("7_00001_5", sched90)]

/-- `sched90` with the first installment already recorded. -/
def sched90partial : Schedule := { sched90 with payments_made := [0] }

/-- A store holding exactly `sched90partial`. -/
def schedStorePartial : SchedStore := [("7_00001_5", sched90partial)]

/-- A fresh 60-day schedule as `add_60day_payment_schedule` creates it. -/
def sched60 : Schedule :=
  { sched90 with
      monthly_amount := none
      payment_date := some 160
      payment_dates := none
      payment_type := some "60day" }

/-- A store holding exactly `sched60`. -/
def schedStore60 : SchedStore := [("7_00002_5", sched60)]

/-- `sched60` after `cancel_payment_schedule`. -/
def sched60cancelled : Schedule := { sched60 with status := "cancelled" }

/-- A store holding exactly `sched60cancelled`. -/
def schedStore60c : SchedStore := [("7_00003_5", sched60cancelled)]

/-- Invariant of 90-day schedules under `mark_payment_made` with
payment numbers in {1,2,3}: the indices are a sorted, duplicate-free
subset of {0,1,2} and the status tracks whether all three are
present. -/
def Mark90Inv (sch : Schedule) : Prop :=
  sch.payment_type = none ∧
  sch.payments_made.Sorted (· ≤ ·) ∧
  sch.payments_made.Nodup ∧
  (∀ x ∈ sch.payments_made, x = 0 ∨ x = 1 ∨ x = 2) ∧
  sch.status = if 3 ≤ sch.payments_made.length then "completed" else "active"


/-! ## Helper lemmas -/

theorem alookup_aupsert {α : Type} (l : List (String × α)) (k : String) (v : α) :
    alookup (aupsert l k v) k = some v := by
  induction l with
  | nil => simp [aupsert, alookup]
  | cons p t ih =>
    by_cases h : p.1 = k
    · simp [aupsert, h, alookup]
    · simpa [aupsert, h, alookup] using ih

theorem alookup_aupsert_ne {α : Type} (l : List (String × α)) (k k' : String) (v : α)
    (h : k ≠ k') : alookup (aupsert l k v) k' = alookup l k' := by
  induction l with
  | nil => simp [aupsert, alookup, h]
  | cons p t ih =>
    by_cases hp : p.1 = k
    · simp [aupsert, hp, alookup, h]
    · simp [aupsert, hp, alookup, ih]

theorem aupsert_self {α : Type} (l : List (String × α)) (k : String) (v : α)
    (h : alookup l k = some v) : aupsert l k v = l := by
  induction l with
  | nil => simp [alookup] at h
  | cons p t ih =>
    obtain ⟨k0, v0⟩ := p
    by_cases hp : k0 = k
    · subst hp
      simp only [alookup, if_true, eq_self_iff_true, Option.some.injEq] at h
      subst h
      simp [aupsert]
    · simp only [alookup, if_neg hp] at h
      simp [aupsert, hp, ih h]

/-- Sanity anchor: `Frac.mul` is exact multiplication of values. -/
theorem Frac.val_mul (a b : Frac) : (a.mul b).val = a.val * b.val := by
  simp [Frac.mul, Frac.val, div_mul_div_comm]

/-- Sanity anchor: `Frac.ofInt` has the expected value. -/
theorem Frac.val_ofInt (n : ℤ) : (Frac.ofInt n).val = (n : ℚ) := by
  simp [Frac.ofInt, Frac.val]

/-- Sanity anchor: `Frac.floor` is the mathematical floor of the value
for fractions with positive denominators. -/
theorem Frac.floor_val (f : Frac) (h : 0 < f.den) : f.floor = ⌊f.val⌋ := by
  obtain ⟨d, hd⟩ : ∃ d : ℕ, f.den = (d : ℤ) := ⟨f.den.toNat, (Int.toNat_of_nonneg h.le).symm⟩
  rw [Frac.floor, Frac.val, hd, Int.fdiv_eq_ediv _ (by positivity),
    ← Rat.floor_intCast_div_natCast f.num d]
  norm_num

/-- Sanity anchor: truncation agrees with the floor on nonnegative
values (all pricing quantities below are nonnegative). -/
theorem pyTrunc_eq_floor (q : Frac) (h : 0 ≤ q.num) : pyTrunc q = q.floor := by
  simp [pyTrunc, Frac.floor, h, Int.fdiv]

/-!  ## The claims -/

/-- **C1** (code bug).  The spec requires `update_order_status` to
reject transitions out of the terminal statuses `completed` and
`cancelled`, leaving the record (including `updated_at`) unchanged.
The code has no terminal-status guard at all: on an order whose status
is `completed` (stored `updated_at = 5`) an update to `pending` at
time 9 returns success, overwrites the status and `updated_at`, and
appends a history entry. -/
theorem c1_terminal_status_not_rejected :
    completedOrder.status = "completed" ∧
    completedOrder.updated_at = 5 ∧
    (update_order_status storeCompleted "00001" "pending" "admin" "" 9 true false).1 = true ∧
    ((load_order
        (update_order_status storeCompleted "00001" "pending" "admin" "" 9 true false).2.1
        "00001").map Order.status) = some "pending" ∧
    ((load_order
        (update_order_status storeCompleted "00001" "pending" "admin" "" 9 true false).2.1
        "00001").map Order.updated_at) = some 9 := by
  decide

/-- **C2** (code bug).  The spec requires `create_order` to reject an
empty `cart_items` with a validation error, persisting nothing and not
incrementing the order counter.  The code performs no such check:
called on an empty cart it allocates id `00001`, increments the counter
from 0 to 1, and persists an order with zero subtotal and an empty
cart. -/
theorem c2_empty_cart_not_rejected :
    (create_order emptyStore 7 ⟨"Ali", "Tehran", "C42"⟩ [] "cash" lit03 none 11).1 = "00001" ∧
    (create_order emptyStore 7 ⟨"Ali", "Tehran", "C42"⟩ [] "cash" lit03 none 11).2.1.counter = 1 ∧
    ((load_order (create_order emptyStore 7 ⟨"Ali", "Tehran", "C42"⟩ [] "cash" lit03 none 11).2.1
        "00001").map fun o => o.pricing.subtotal) = some 0 ∧
    ((load_order (create_order emptyStore 7 ⟨"Ali", "Tehran", "C42"⟩ [] "cash" lit03 none 11).2.1
        "00001").map fun o => o.cart_items) = some [] := by
  decide

/-- **C4** (code bug).  `get_customer_orders` matches file names of the
shape `order_{user_id}_*.json`, but orders are saved (by
`_get_order_file_path`) under `order_{order_id}.json` with counter ids
such as `00001`, so the persisted order of user 7 is never matched: the
function returns the empty list although the store holds an order whose
`user_id` is 7. -/
theorem c4_get_customer_orders_misses_orders :
    completedOrder.user_id = 7 ∧
    load_order storeCompleted "00001" = some completedOrder ∧
    get_customer_orders storeCompleted 7 = [] := by
  decide

/-- **C3** (counterexample).  The only value `create_order` can receive
for a discount rate of 0.30 is the binary64 value `lit03` of the
literal `0.30`, which lies in [0,1].  On the spec's own example cart
`[{price: 4780000, quantity: 1}]` the recorded discount is 1434000
(the product `4780000 * 0.30` rounds up to the double 1434000.0 before
`int()` truncates), whereas `⌊subtotal × discount_rate⌋` of the exact
product is 1433999 — so `discount = ⌊subtotal × rate⌋` fails at this
input. -/
theorem c3_floor_formula_counterexample :
    ((load_order
        (create_order emptyStore 7 ⟨"Ali", "Tehran", "C42"⟩ [⟨4780000, 1⟩] "cash" lit03 none
          11).2.1 "00001").map fun o => o.pricing.discount) = some 1434000 ∧
    (Frac.mul (Frac.ofInt 4780000) lit03).floor = 1433999 ∧
    calculate_discount 4780000 lit03 ≠ (Frac.mul (Frac.ofInt 4780000) lit03).floor := by
  decide

/-- **C3** (amended).  For every cart and discount rate, the order
created by `create_order` records `subtotal = Σ(price × quantity)`
exactly, `total = subtotal − discount + tax` exactly, and discount and
tax computed by the binary64 pipeline (`int(subtotal * rate)` and
`int((subtotal − discount) * 0.09)`); on the example cart with rate
0.30 this binary64 pipeline produces exactly the spec's example values
discount = 1434000, tax = 301140, total = 3647140. -/
theorem c3_pricing_amended (store : OrderStore) (uid : ℤ) (cust : Customer)
    (cart : List CartItem) (pm : String) (rate : Frac) (receipt : Option String) (now : ℕ) :
    (∃ o, load_order (create_order store uid cust cart pm rate receipt now).2.1
            (create_order store uid cust cart pm rate receipt now).1 = some o ∧
       o.pricing.subtotal = (cart.map fun it => it.price * it.quantity).sum ∧
       o.pricing.discount = calculate_discount o.pricing.subtotal rate ∧
       o.pricing.tax = calculate_tax (o.pricing.subtotal - o.pricing.discount) ∧
       o.pricing.total = o.pricing.subtotal - o.pricing.discount + o.pricing.tax) ∧
    calculate_subtotal [⟨4780000, 1⟩] = 4780000 ∧
    calculate_discount 4780000 lit03 = 1434000 ∧
    calculate_tax (4780000 - 1434000) = 301140 ∧
    (4780000 - 1434000 + 301140 : ℤ) = 3647140 := by
  have hload : load_order (create_order store uid cust cart pm rate receipt now).2.1
      (create_order store uid cust cart pm rate receipt now).1 = some
      { order_id := pad5 (store.counter + 1)
        user_id := uid
        customer := cust
        cart_items := cart
        payment_method := pm
        pricing :=
          ⟨calculate_subtotal cart, rate,
           calculate_discount (calculate_subtotal cart) rate,
           calculate_tax
             (calculate_subtotal cart - calculate_discount (calculate_subtotal cart) rate),
           calculate_subtotal cart - calculate_discount (calculate_subtotal cart) rate +
             calculate_tax
               (calculate_subtotal cart - calculate_discount (calculate_subtotal cart) rate)⟩
        status := "pending"
        created_at := now
        updated_at := now
        status_history := [⟨"pending", now, none, "سفارش ایجاد شد"⟩]
        hesabfa_invoice_id := none } := by
    dsimp [create_order, generate_order_id, load_order, save_order]
    exact alookup_aupsert _ _ _
  exact ⟨⟨_, hload, rfl, rfl, rfl, rfl⟩, by decide, by decide, by decide, by decide⟩

/-- **C7** (confirmed).  When `update_order_status` finds the order it
always returns success and its new store is exactly the persisted
updated record (new status, one appended history entry, new
`updated_at`); the first effect of its trace is the persistence, so the
record is durable before the Hesabfa task or any customer notification
is attempted, and the success result holds for every value of
`notifyFails` (a notification failure only swaps the direct
notification for a background retry effect). -/
theorem c7_persist_before_side_effects (store : OrderStore)
    (oid ns admin note : String) (now : ℕ) (botSet notifyFails : Bool) (od : Order)
    (h : load_order store oid = some od) :
    ∃ od',
      od' = { od with
                status := ns
                updated_at := now
                status_history := od.status_history ++
                  [⟨ns, now, some admin, if note = "" then defaultNote od.status ns else note⟩] } ∧
      (update_order_status store oid ns admin note now botSet notifyFails).1 = true ∧
      (update_order_status store oid ns admin note now botSet notifyFails).2.1 =
        save_order store od' ∧
      ((update_order_status store oid ns admin note now botSet notifyFails).2.2).head? =
        some (Effect.persistOrder od') := by
  refine ⟨_, rfl, ?_, ?_, ?_⟩ <;> simp [update_order_status, h]

theorem markSchedule_inv (sch : Schedule) (n : ℤ) (hg : Mark90Inv sch)
    (hn : n = 1 ∨ n = 2 ∨ n = 3) :
    Mark90Inv (markSchedule sch n) ∧
    (n - 1) ∈ (markSchedule sch n).payments_made ∧
    ∀ x ∈ sch.payments_made, x ∈ (markSchedule sch n).payments_made := by
  obtain ⟨ht, hs, hd, hsub, hst⟩ := hg
  have h60 : ¬ sch.payment_type.getD "90day" = "60day" := by simp [ht]
  by_cases hmem : (n - 1) ∈ sch.payments_made
  · have hpm : (markSchedule sch n).payments_made = sch.payments_made := by
      simp [markSchedule, h60, hmem]
    have htp : (markSchedule sch n).payment_type = sch.payment_type := by
      simp [markSchedule, h60, hmem]
    have hstn : (markSchedule sch n).status =
        if 3 ≤ sch.payments_made.length then "completed" else sch.status := by
      simp [markSchedule, h60, hmem]
    refine ⟨⟨htp.trans ht, hpm ▸ hs, hpm ▸ hd, ?_, ?_⟩, hpm ▸ hmem, fun x hx => hpm ▸ hx⟩
    · intro x hx
      exact hsub x (hpm ▸ hx)
    · rw [hstn, hpm, hst]
      by_cases hc : 3 ≤ sch.payments_made.length <;> simp [hc]
  · have hperm :
        List.Perm (List.insertionSort (fun a b => a ≤ b) (sch.payments_made ++ [n - 1]))
          (sch.payments_made ++ [n - 1]) :=
      List.perm_insertionSort _ _
    have hpm : (markSchedule sch n).payments_made =
        List.insertionSort (fun a b => a ≤ b) (sch.payments_made ++ [n - 1]) := by
      simp [markSchedule, h60, hmem]
    have htp : (markSchedule sch n).payment_type = sch.payment_type := by
      simp [markSchedule, h60, hmem]
    have hlen : (markSchedule sch n).payments_made.length =
        sch.payments_made.length + 1 := by
      rw [hpm, hperm.length_eq]
      simp
    have hstn : (markSchedule sch n).status =
        if 3 ≤ (markSchedule sch n).payments_made.length then "completed"
        else sch.status := by
      simp [markSchedule, h60, hmem]
    refine ⟨⟨htp.trans ht, ?_, ?_, ?_, ?_⟩, ?_, ?_⟩
    · rw [hpm]
      exact List.sorted_insertionSort _ _
    · rw [hpm, hperm.nodup_iff]
      simp [List.nodup_append, hd, hmem]
    · intro x hx
      rw [hpm, List.mem_insertionSort, List.mem_append] at hx
      rcases hx with hx | hx
      · exact hsub x hx
      · simp only [List.mem_singleton] at hx
        subst hx
        rcases hn with rfl | rfl | rfl <;> norm_num
    · rw [hstn, hlen, hst]
      by_cases hc : 3 ≤ sch.payments_made.length + 1
      · have : 3 ≤ sch.payments_made.length + 1 := hc
        by_cases hc' : 3 ≤ sch.payments_made.length <;> simp [hc, hc']
      · have hc' : ¬ 3 ≤ sch.payments_made.length := fun h => hc (le_trans h (Nat.le_succ _))
        simp [hc, hc']
    · rw [hpm, List.mem_insertionSort, List.mem_append]
      simp
    · intro x hx
      rw [hpm, List.mem_insertionSort, List.mem_append]
      exact Or.inl hx

theorem foldMark_inv (ns : List ℤ) (sch : Schedule) (hg : Mark90Inv sch)
    (hns : ∀ n ∈ ns, n = 1 ∨ n = 2 ∨ n = 3) :
    Mark90Inv (ns.foldl markSchedule sch) ∧
    (∀ x ∈ sch.payments_made, x ∈ (ns.foldl markSchedule sch).payments_made) ∧
    ∀ n ∈ ns, (n - 1) ∈ (ns.foldl markSchedule sch).payments_made := by
  induction ns generalizing sch with
  | nil => exact ⟨hg, fun x hx => hx, by simp⟩
  | cons m ms ih =>
    have hm : m = 1 ∨ m = 2 ∨ m = 3 := hns m (by simp)
    obtain ⟨hg', hmem', hmono'⟩ := markSchedule_inv sch m hg hm
    obtain ⟨ihg, ihmono, ihcov⟩ := ih (markSchedule sch m) hg' fun n hn => hns n (by simp [hn])
    refine ⟨ihg, ?_, ?_⟩
    · intro x hx
      exact ihmono x (hmono' x hx)
    · intro n hn
      rcases List.mem_cons.mp hn with rfl | hn
      · exact ihmono _ hmem'
      · exact ihcov n hn

theorem sorted_nodup_cover_three (l : List ℤ) (hs : l.Sorted (· ≤ ·)) (hd : l.Nodup)
    (hsub : ∀ x ∈ l, x = 0 ∨ x = 1 ∨ x = 2) (h0 : (0 : ℤ) ∈ l) (h1 : (1 : ℤ) ∈ l)
    (h2 : (2 : ℤ) ∈ l) : l = [0, 1, 2] := by
  have hperm : List.Perm l [0, 1, 2] := by
    rw [List.perm_ext_iff_of_nodup hd (by decide)]
    intro a
    constructor
    · intro ha
      rcases hsub a ha with rfl | rfl | rfl <;> simp
    · intro ha
      simp only [List.mem_cons, List.not_mem_nil, or_false] at ha
      rcases ha with rfl | rfl | rfl
      exacts [h0, h1, h2]
  exact List.eq_of_perm_of_sorted hperm hs (by decide)

theorem mark_payment_made_found (store : SchedStore) (sid : String) (sch : Schedule)
    (n : ℤ) (h : alookup store sid = some sch) :
    mark_payment_made store sid n = (true, aupsert store sid (markSchedule sch n)) := by
  simp [mark_payment_made, h]

theorem markSeq_lookup (ns : List ℤ) (store : SchedStore) (sid : String) (sch : Schedule)
    (h : alookup store sid = some sch) :
    alookup (markSeq store sid ns) sid = some (ns.foldl markSchedule sch) := by
  induction ns generalizing store sch with
  | nil => exact h
  | cons m ms ih =>
    have hstep := mark_payment_made_found store sid sch m h
    show alookup (markSeq (mark_payment_made store sid m).2 sid ms) sid = _
    rw [hstep]
    exact ih _ _ (alookup_aupsert store sid (markSchedule sch m))

/-- **C5** (confirmed).  Starting from a 90-day schedule with no
payments recorded and status `active`, any sequence of
`mark_payment_made` calls whose payment numbers lie in {1,2,3} and
cover all of 1, 2 and 3 — in any order, with any duplicates — leaves
the schedule with `payments_made` exactly `[0, 1, 2]` and status
`completed`; moreover a call whose `payment_number − 1` is already
recorded returns success and leaves the store completely unchanged. -/
theorem c5_ninety_day_marking (store : SchedStore) (sid : String) (sch : Schedule)
    (ns : List ℤ) (store' : SchedStore) (sid' : String) (sch' : Schedule) (n' : ℤ)
    (hfound : alookup store sid = some sch)
    (htype : sch.payment_type = none)
    (hpm : sch.payments_made = [])
    (hst : sch.status = "active")
    (hns : ∀ n ∈ ns, n = 1 ∨ n = 2 ∨ n = 3)
    (h1 : (1 : ℤ) ∈ ns) (h2 : (2 : ℤ) ∈ ns) (h3 : (3 : ℤ) ∈ ns)
    (hfound' : alookup store' sid' = some sch')
    (htype' : sch'.payment_type = none)
    (hmem' : (n' - 1) ∈ sch'.payments_made)
    (hreach' : sch'.payments_made.length < 3 ∨ sch'.status = "completed") :
    (∃ schF, alookup (markSeq store sid ns) sid = some schF ∧
       schF.payments_made = [0, 1, 2] ∧ schF.status = "completed") ∧
    mark_payment_made store' sid' n' = (true, store') := by
  constructor
  · have hg : Mark90Inv sch := by
      refine ⟨htype, ?_, ?_, ?_, ?_⟩ <;> simp [hpm, hst]
    obtain ⟨⟨_, hsF, hdF, hsubF, hstF⟩, _, hcov⟩ := foldMark_inv ns sch hg hns
    have hpmF : (ns.foldl markSchedule sch).payments_made = [0, 1, 2] := by
      refine sorted_nodup_cover_three _ hsF hdF hsubF ?_ ?_ ?_
      · simpa using hcov 1 h1
      · simpa using hcov 2 h2
      · simpa using hcov 3 h3
    refine ⟨ns.foldl markSchedule sch, markSeq_lookup ns store sid sch hfound, hpmF, ?_⟩
    rw [hstF, hpmF]
    decide
  · have hnoop : markSchedule sch' n' = sch' := by
      have h60 : ¬ sch'.payment_type.getD "90day" = "60day" := by simp [htype']
      obtain ⟨uid, ci, oid, ta, ap, ra, ma, pd, pds, pt, pmade, cd, st⟩ := sch'
      rcases hreach' with hlt | hcompleted
      · simp only [List.length] at hlt
        simp_all [markSchedule, Nat.not_le.mpr hlt]
      · simp_all [markSchedule]
    rw [mark_payment_made_found store' sid' sch' n' hfound', hnoop,
      aupsert_self store' sid' sch' hfound']

/-- **C6** (confirmed).  Every reminder returned by
`get_pending_reminders` refers to a schedule in the store whose status
is `active` (hence neither `cancelled` nor `completed`) and whose
relevant installment index (`payment_number − 1`) is not in
`payments_made`.  The function itself is a pure read: it returns only
the reminder list and leaves the store untouched. -/
theorem c6_pending_reminders_filter (store : SchedStore) (today : ℕ) (r : Reminder)
    (hr : r ∈ get_pending_reminders store today) :
    ∃ sch, (r.schedule_id, sch) ∈ store ∧
      sch.status = "active" ∧ sch.status ≠ "cancelled" ∧ sch.status ≠ "completed" ∧
      (r.payment_number - 1) ∉ sch.payments_made := by
  rw [get_pending_reminders, List.mem_flatMap] at hr
  obtain ⟨p, hp, hrp⟩ := hr
  by_cases hact : p.2.status = "active"
  · have hne : ¬ p.2.status ≠ "active" := by simp [hact]
    rw [if_neg hne] at hrp
    by_cases h60 : p.2.payment_type.getD "90day" = "60day"
    · rw [if_pos h60] at hrp
      by_cases hcond : p.2.payment_date.getD 0 = today ∧ p.2.payments_made = []
      · rw [if_pos hcond] at hrp
        simp only [List.mem_singleton] at hrp
        subst hrp
        refine ⟨p.2, by simpa using hp, hact, ?_, ?_, ?_⟩
        · rw [hact]; decide
        · rw [hact]; decide
        · simp [hcond.2]
      · rw [if_neg hcond] at hrp
        simp at hrp
    · rw [if_neg h60] at hrp
      rw [List.mem_filterMap] at hrp
      obtain ⟨q, _, hfq⟩ := hrp
      by_cases hcond : q.2 = today ∧ (q.1 : ℤ) ∉ p.2.payments_made
      · rw [if_pos hcond, Option.some_inj] at hfq
        subst hfq
        refine ⟨p.2, by simpa using hp, hact, ?_, ?_, ?_⟩
        · rw [hact]; decide
        · rw [hact]; decide
        · simpa using hcond.2
      · rw [if_neg hcond] at hfq
        exact absurd hfq (by simp)
  · rw [if_pos hact] at hrp
    simp at hrp

/-- **C8** (confirmed).  On a schedule carrying `payment_type =
"60day"`, a single `mark_payment_made` call — with any payment number
and from any prior state — returns success and persists the schedule
with the single marker `[0]` set and status `completed`. -/
theorem c8_sixty_day_one_shot (store : SchedStore) (sid : String) (sch : Schedule) (n : ℤ)
    (hfound : alookup store sid = some sch) (h60 : sch.payment_type = some "60day") :
    (mark_payment_made store sid n).1 = true ∧
    alookup (mark_payment_made store sid n).2 sid =
      some { sch with payments_made := [0], status := "completed" } := by
  rw [mark_payment_made_found store sid sch n hfound]
  refine ⟨rfl, ?_⟩
  have hmk : markSchedule sch n = { sch with payments_made := [0], status := "completed" } := by
    simp [markSchedule, h60]
  rw [hmk]
  exact alookup_aupsert _ _ _

/-- **C9** (confirmed).  `add_90day_payment_schedule` reports success
and persists (under the id `{user_id}_{order_id}_{timestamp}`) a
schedule with status `active`, empty `payments_made`, exactly the three
payment dates +30/+60/+90 days from creation, and
`monthly_amount = remaining_amount / 3` in binary64 — which for
`remaining_amount = 900000` is exactly 300000. -/
theorem c9_ninety_day_schedule_creation (store : SchedStore) (uid : ℤ) (ci : Customer)
    (total advance remaining : Frac) (oid : String) (today : ℕ) (ts : ℤ) :
    (add_90day_payment_schedule store uid ci total advance remaining oid today ts).1 = true ∧
    (∃ sch,
      alookup (add_90day_payment_schedule store uid ci total advance remaining oid today ts).2
          (toString uid ++ "_" ++ oid ++ "_" ++ toString ts) = some sch ∧
      sch.status = "active" ∧
      sch.payments_made = [] ∧
      sch.monthly_amount = some (fdiv remaining (Frac.ofInt 3)) ∧
      sch.payment_dates = some [today + 30, today + 60, today + 90]) ∧
    fdiv (Frac.ofInt 900000) (Frac.ofInt 3) = Frac.ofInt 300000 := by
  refine ⟨rfl, ?_, by decide⟩
  dsimp [add_90day_payment_schedule]
  exact ⟨_, alookup_aupsert _ _ _, rfl, rfl, rfl, rfl⟩

/-- **C10** (confirmed, implicit claim).  `mark_payment_made` never
inspects the schedule's status: on a schedule whose status is
`cancelled` it still reports success and records the payment, and the
status is overwritten to `completed` for any 60-day schedule, or for a
90-day schedule whose recorded indices reach three — cancellation is
not terminal against payment marking. -/
theorem c10_marking_ignores_cancelled (store : SchedStore) (sid : String) (sch : Schedule)
    (n : ℤ) (hfound : alookup store sid = some sch) (hcan : sch.status = "cancelled") :
    (mark_payment_made store sid n).1 = true ∧
    alookup (mark_payment_made store sid n).2 sid = some (markSchedule sch n) ∧
    (sch.payment_type = some "60day" → (markSchedule sch n).status = "completed") ∧
    (sch.payment_type = none → 3 ≤ (markSchedule sch n).payments_made.length →
      (markSchedule sch n).status = "completed") := by
  rw [mark_payment_made_found store sid sch n hfound]
  refine ⟨rfl, alookup_aupsert _ _ _, ?_, ?_⟩
  · intro h60
    simp [markSchedule, h60]
  · intro h90
    have h60 : ¬ sch.payment_type.getD "90day" = "60day" := by simp [h90]
    by_cases hmem : (n - 1) ∈ sch.payments_made <;>
        intro hlen <;>
        simp only [markSchedule, h60, if_false, hmem, if_true, if_neg, ite_false] at hlen ⊢ <;>
      simp_all

/-- Witness for C5: marking 2, 1, 2, 3 on a fresh 90-day schedule
completes it with indices `[0, 1, 2]`, and re-marking payment 1 on a
schedule that already recorded index 0 changes nothing. -/
theorem c5_ninety_day_marking_witness :
    (∃ schF, alookup (markSeq schedStore90 "7_00001_5" [2, 1, 2, 3]) "7_00001_5" = some schF ∧
       schF.payments_made = [0, 1, 2] ∧ schF.status = "completed") ∧
    mark_payment_made schedStorePartial "7_00001_5" 1 = (true, schedStorePartial) :=
  c5_ninety_day_marking schedStore90 "7_00001_5" sched90 [2, 1, 2, 3]
    schedStorePartial "7_00001_5" sched90partial 1
    (by decide) (by decide) (by decide) (by decide) (by decide) (by decide) (by decide)
    (by decide) (by decide) (by decide) (by decide) (by decide)

/-- Witness for C6: the reminder produced for the first installment of
`sched90` on its due day refers to an active schedule with an unpaid
index. -/
theorem c6_pending_reminders_filter_witness :
    ∃ sch, (("7_00001_5" : String), sch) ∈ schedStore90 ∧
      sch.status = "active" ∧ sch.status ≠ "cancelled" ∧ sch.status ≠ "completed" ∧
      ((1 : ℤ) - 1) ∉ sch.payments_made :=
  c6_pending_reminders_filter schedStore90 130
    ⟨"7_00001_5", 7, ⟨"Ali", "Tehran", "C42"⟩, 1,
      fdiv (Frac.ofInt 900000) (Frac.ofInt 3), some 3, "90day", 130⟩
    (by decide)

/-- Witness for C7: updating the stored order to `shipped` at time 9
persists first and succeeds even when the notification fails. -/
theorem c7_persist_before_side_effects_witness :
    ∃ od',
      od' = { completedOrder with
                status := "shipped"
                updated_at := 9
                status_history := completedOrder.status_history ++
                  [⟨"shipped", 9, some "admin",
                    if "" = "" then defaultNote completedOrder.status "shipped" else ""⟩] } ∧
      (update_order_status storeCompleted "00001" "shipped" "admin" "" 9 true true).1 = true ∧
      (update_order_status storeCompleted "00001" "shipped" "admin" "" 9 true true).2.1 =
        save_order storeCompleted od' ∧
      ((update_order_status storeCompleted "00001" "shipped" "admin" "" 9 true true).2.2).head? =
        some (Effect.persistOrder od') :=
  c7_persist_before_side_effects storeCompleted "00001" "shipped" "admin" "" 9 true true
    completedOrder (by decide)

/-- Witness for C8: one `mark_payment_made` call on `sched60` records
the single marker and completes the schedule. -/
theorem c8_sixty_day_one_shot_witness :
    (mark_payment_made schedStore60 "7_00002_5" 1).1 = true ∧
    alookup (mark_payment_made schedStore60 "7_00002_5" 1).2 "7_00002_5" =
      some { sched60 with payments_made := [0], status := "completed" } :=
  c8_sixty_day_one_shot schedStore60 "7_00002_5" sched60 1 (by decide) (by decide)

/-- Witness for C9: creating a 90-day schedule with remaining amount
900000 records monthly amount exactly 300000 and dates +30/+60/+90. -/
theorem c9_ninety_day_schedule_creation_witness :
    (add_90day_payment_schedule [] 7 ⟨"Ali", "Tehran", "C42"⟩ (Frac.ofInt 1200000)
        (Frac.ofInt 300000) (Frac.ofInt 900000) "00001" 100 5).1 = true ∧
    (∃ sch,
      alookup (add_90day_payment_schedule [] 7 ⟨"Ali", "Tehran", "C42"⟩ (Frac.ofInt 1200000)
          (Frac.ofInt 300000) (Frac.ofInt 900000) "00001" 100 5).2
          (toString (7 : ℤ) ++ "_" ++ "00001" ++ "_" ++ toString (5 : ℤ)) = some sch ∧
      sch.status = "active" ∧
      sch.payments_made = [] ∧
      sch.monthly_amount = some (fdiv (Frac.ofInt 900000) (Frac.ofInt 3)) ∧
      sch.payment_dates = some [100 + 30, 100 + 60, 100 + 90]) ∧
    fdiv (Frac.ofInt 900000) (Frac.ofInt 3) = Frac.ofInt 300000 :=
  c9_ninety_day_schedule_creation [] 7 ⟨"Ali", "Tehran", "C42"⟩ (Frac.ofInt 1200000)
    (Frac.ofInt 300000) (Frac.ofInt 900000) "00001" 100 5

/-- Witness for C10: marking a payment on the cancelled 60-day schedule
succeeds and overwrites the status to `completed`. -/
theorem c10_marking_ignores_cancelled_witness :
    (mark_payment_made schedStore60c "7_00003_5" 1).1 = true ∧
    alookup (mark_payment_made schedStore60c "7_00003_5" 1).2 "7_00003_5" =
      some (markSchedule sched60cancelled 1) ∧
    (sched60cancelled.payment_type = some "60day" →
      (markSchedule sched60cancelled 1).status = "completed") ∧
    (sched60cancelled.payment_type = none →
      3 ≤ (markSchedule sched60cancelled 1).payments_made.length →
      (markSchedule sched60cancelled 1).status = "completed") :=
  c10_marking_ignores_cancelled schedStore60c "7_00003_5" sched60cancelled 1
    (by decide) (by decide)

end Faezee
